import Mathlib

/-
Verification of the sqlite-to-postgres migration script
(src/sqlite-to-postgres-migration/migrate.js) against its specification.

The script is shallowly embedded: JavaScript runtime values appearing in
rows become the inductive type JsValue, the awaited database calls become
oracle functions returning Except, and the loops become fuel-bounded
recursive functions over those oracles.
-/

namespace Migrate

/-- A JavaScript runtime value as the sqlite3 driver delivers it for one
row field: null, a number (rows of integer affinity arrive as integral
numbers, embedded here as Int), a string, or a Buffer (a byte list). -/
inductive JsValue where
  | vnull : JsValue
  | num : Int → JsValue
  | str : String → JsValue
  | buf : List Nat → JsValue
deriving DecidableEq, Repr

/-- Fixed page size for the OFFSET/LIMIT row pager (migrate.js line 9). -/
def BATCH_SIZE : Nat := 500

/-- Fixed bound on schema-introspection attempts (migrate.js line 10). -/
def MAX_RETRIES : Nat := 3

/-- Per-character ASCII upper-casing, modelling the JS toUpperCase call as
it acts on the type keywords involved. -/
def upperChar (c : Char) : Char :=
  if 97 ≤ c.toNat ∧ c.toNat ≤ 122 then Char.ofNat (c.toNat - 32) else c

/-- String upper-casing, modelling JS toUpperCase. -/
def upperStr (s : String) : String := String.mk (s.data.map upperChar)

/-- Per-character ASCII lower-casing, modelling the JS toLowerCase call. -/
def lowerChar (c : Char) : Char :=
  if 65 ≤ c.toNat ∧ c.toNat ≤ 90 then Char.ofNat (c.toNat + 32) else c

/-- String lower-casing, modelling JS toLowerCase. -/
def lowerStr (s : String) : String := String.mk (s.data.map lowerChar)

/-- Type translator (migrate.js lines 21-29): switch on the upper-cased
declared source type, with TEXT as the default arm. -/
def sqliteToPgType (sqliteType : String) : String :=
  match upperStr sqliteType with
  | "INTEGER" => "INTEGER"
  | "REAL" => "DOUBLE PRECISION"
  | "TEXT" => "TEXT"
  | "BLOB" => "BYTEA"
  | _ => "TEXT"

/-- The fixed reserved-word list of migrate.js line 33. -/
def reservedKeywords : List String :=
  ["user", "group", "order", "table", "select", "where", "from", "index", "constraint"]

/-- Safe-identifier helper (migrate.js lines 32-35): wrap in double quotes
when the lower-cased identifier is in the reserved list, else pass through. -/
def getSafeIdentifier (identifier : String) : String :=
  if lowerStr identifier ∈ reservedKeywords then "\"" ++ identifier ++ "\"" else identifier

/-- Claim C3: sqliteToPgType maps, case-insensitively on the declared
keyword (equality of the upper-cased form), INTEGER to INTEGER, REAL to
DOUBLE PRECISION, TEXT to TEXT, BLOB to the destination binary type BYTEA,
and every other string to TEXT. -/
theorem c3_type_translation (s : String) :
    (upperStr s = "INTEGER" → sqliteToPgType s = "INTEGER")
    ∧ (upperStr s = "REAL" → sqliteToPgType s = "DOUBLE PRECISION")
    ∧ (upperStr s = "TEXT" → sqliteToPgType s = "TEXT")
    ∧ (upperStr s = "BLOB" → sqliteToPgType s = "BYTEA")
    ∧ (upperStr s ≠ "INTEGER" → upperStr s ≠ "REAL" → upperStr s ≠ "TEXT" →
        upperStr s ≠ "BLOB" → sqliteToPgType s = "TEXT") := by
  refine ⟨?_, ?_, ?_, ?_, ?_⟩
  · intro h; simp [sqliteToPgType, h]
  · intro h; simp [sqliteToPgType, h]
  · intro h; simp [sqliteToPgType, h]
  · intro h; simp [sqliteToPgType, h]
  · intro h1 h2 h3 h4
    unfold sqliteToPgType
    split <;> simp_all

/-- Claim C3 witness: the mixed-case declared type Blob upper-cases to BLOB
and is translated to the binary type BYTEA. -/
theorem c3_type_translation_witness :
    upperStr "Blob" = "BLOB" ∧ sqliteToPgType "Blob" = "BYTEA" :=
  ⟨by decide, (c3_type_translation "Blob").2.2.2.1 (by decide)⟩

/-- Claim C4: getSafeIdentifier wraps the identifier in double quotes with
its content unchanged exactly when its lower-cased form is in the fixed
reserved list, and returns every other identifier unmodified. -/
theorem c4_safe_identifier (id : String) :
    (lowerStr id ∈ reservedKeywords → getSafeIdentifier id = "\"" ++ id ++ "\"")
    ∧ (lowerStr id ∉ reservedKeywords → getSafeIdentifier id = id) := by
  constructor
  · intro h; simp [getSafeIdentifier, h]
  · intro h; simp [getSafeIdentifier, h]

/-- Claim C4 witness: User is reserved up to case and is returned quoted
with its content unchanged. -/
theorem c4_safe_identifier_witness :
    lowerStr "User" ∈ reservedKeywords ∧ getSafeIdentifier "User" = "\"User\"" :=
  ⟨by decide, (c4_safe_identifier "User").1 (by decide)⟩

/-- The single-quote character used by the SQL literal encoder. -/
def sq : Char := Char.ofNat 39

/-- The NUL character removed from text values. -/
def nulChar : Char := Char.ofNat 0

/-- First replace at migrate.js line 240: remove embedded NUL characters. -/
def stripNul (s : String) : String := String.mk (s.data.filter (fun c => c != nulChar))

/-- Character-level escape map: one single quote becomes two, every other
character is kept. -/
def escChar (c : Char) : List Char := if c = sq then [sq, sq] else [c]

/-- Second replace at migrate.js line 241 (also used in the Buffer branch
at lines 232 and 234): double every single quote. -/
def escapeQuotes (s : String) : String := String.mk (s.data.flatMap escChar)

/-- Template literal wrapping of migrate.js line 242: surround with single
quotes. -/
def quoteWrap (s : String) : String := String.mk (sq :: s.data ++ [sq])

/-- Row-value encoder (migrate.js lines 220-246). columnType is the
destination-reported data type looked up for the column (none when the
column is absent from the destination map); bufDecode abstracts the
Buffer toString decoding, which the claims do not depend on. Rules in
source order: null, boolean column, Buffer, string, numeric fall-through. -/
def encodeValue (bufDecode : List Nat → String) (columnType : Option String)
    (value : JsValue) : String :=
  if value = JsValue.vnull then "NULL"
  else if columnType = some "boolean" then
    if value = JsValue.num 1 then "true" else "false"
  else
    match value with
    | .buf b => quoteWrap (escapeQuotes (bufDecode b))
    | .str s => quoteWrap (escapeQuotes (stripNul s))
    | .num n => toString n
    | .vnull => "NULL"

/-- Number of single-quote characters in a character list. -/
def countQuote (l : List Char) : Nat := l.countP (fun c => c == sq)

/-- Checks that every single quote occurs as the first half of an adjacent
doubled pair, the well-formedness condition for the body of a single
quoted SQL literal. -/
def quotePaired : List Char → Bool
  | [] => true
  | c :: rest =>
    if c = sq then
      match rest with
      | c2 :: rest2 => c2 == sq && quotePaired rest2
      | [] => false
    else quotePaired rest

theorem countQuote_flatMap_escChar (l : List Char) :
    countQuote (l.flatMap escChar) = 2 * countQuote l := by
  induction l with
  | nil => rfl
  | cons c l ih =>
    by_cases h : c = sq
    · subst h
      simp [countQuote, escChar, List.countP_cons, List.countP_append] at *
      omega
    · simp [countQuote, escChar, h, List.countP_cons, List.countP_append] at *
      omega

theorem mem_flatMap_escChar {a : Char} {l : List Char} (h : a ∈ l.flatMap escChar) :
    a ∈ l ∨ a = sq := by
  rw [List.mem_flatMap] at h
  obtain ⟨c, hc, hm⟩ := h
  unfold escChar at hm
  by_cases hcq : c = sq
  · simp [hcq] at hm
    exact Or.inr hm
  · simp [hcq] at hm
    exact Or.inl (hm ▸ hc)

theorem quotePaired_cons_ne {c : Char} {rest : List Char} (h : c ≠ sq) :
    quotePaired (c :: rest) = quotePaired rest := by
  cases rest <;> simp [quotePaired, h]

theorem quotePaired_sq_sq (rest : List Char) :
    quotePaired (sq :: sq :: rest) = quotePaired rest := by
  simp [quotePaired]

theorem quotePaired_flatMap_escChar (l : List Char) :
    quotePaired (l.flatMap escChar) = true := by
  induction l with
  | nil => rfl
  | cons c l ih =>
    by_cases h : c = sq
    · subst h
      rw [show (sq :: l).flatMap escChar = sq :: sq :: l.flatMap escChar by
        simp [escChar]]
      rw [quotePaired_sq_sq]
      exact ih
    · rw [show (c :: l).flatMap escChar = c :: l.flatMap escChar by
        simp [escChar, h]]
      rw [quotePaired_cons_ne h]
      exact ih

theorem countQuote_filter_ne_nul (l : List Char) :
    countQuote (l.filter (fun c => c != nulChar)) = countQuote l := by
  induction l with
  | nil => rfl
  | cons c l ih =>
    by_cases h : c = nulChar
    · subst h
      have hq : (nulChar == sq) = false := by decide
      simp [countQuote, List.countP_cons, hq] at *
      exact ih
    · simp [countQuote, List.filter_cons, h, List.countP_cons] at *
      omega

theorem nulChar_not_mem_stripNul (s : String) : nulChar ∉ (stripNul s).data := by
  intro h
  rw [stripNul] at h
  have := (List.mem_filter.mp h).2
  simp at this

/-- Claim C6: the encoder applies its rules in order: a null value always
encodes to the NULL literal whatever the destination-reported column type
is; otherwise, when the destination-reported type is boolean, the value 1
encodes to true and every other non-null value encodes to false. -/
theorem c6_null_and_boolean (bufDecode : List Nat → String) (columnType : Option String)
    (v : JsValue) :
    encodeValue bufDecode columnType JsValue.vnull = "NULL"
    ∧ encodeValue bufDecode (some "boolean") (JsValue.num 1) = "true"
    ∧ (v ≠ JsValue.vnull → v ≠ JsValue.num 1 →
        encodeValue bufDecode (some "boolean") v = "false") := by
  refine ⟨by simp [encodeValue], by simp [encodeValue], ?_⟩
  intro hnull hone
  simp [encodeValue, hnull, hone]

/-- Claim C6 witness: a non-null string value under a boolean-reported
column encodes to false, at a concrete input. -/
theorem c6_null_and_boolean_witness :
    JsValue.str "x" ≠ JsValue.vnull ∧ JsValue.str "x" ≠ JsValue.num 1
    ∧ encodeValue (fun _ => "") (some "boolean") (JsValue.str "x") = "false" :=
  ⟨by decide, by decide,
    (c6_null_and_boolean (fun _ => "") (some "boolean") (JsValue.str "x")).2.2
      (by decide) (by decide)⟩

/-- Claim C7: for a text value reaching the string rule, the encoder
removes every embedded NUL character, doubles every single quote, and
wraps the result in single quotes: the output is the quote-wrapped escaped
body, contains no NUL character, its body carries each original quote
doubled, and the body is quote-paired, so the output is syntactically one
single quoted literal. -/
theorem c7_text_escaping (bufDecode : List Nat → String) (columnType : Option String)
    (hct : columnType ≠ some "boolean") (s : String) :
    encodeValue bufDecode columnType (JsValue.str s)
      = String.mk (sq :: (escapeQuotes (stripNul s)).data ++ [sq])
    ∧ nulChar ∉ (encodeValue bufDecode columnType (JsValue.str s)).data
    ∧ countQuote (escapeQuotes (stripNul s)).data = 2 * countQuote s.data
    ∧ quotePaired (escapeQuotes (stripNul s)).data = true := by
  have henc : encodeValue bufDecode columnType (JsValue.str s)
      = String.mk (sq :: (escapeQuotes (stripNul s)).data ++ [sq]) := by
    simp [encodeValue, hct, quoteWrap]
  refine ⟨henc, ?_, ?_, quotePaired_flatMap_escChar _⟩
  · rw [henc]
    intro hmem
    have hsq : nulChar ≠ sq := by decide
    rcases List.mem_cons.mp hmem with h | h
    · exact hsq h
    · rcases List.mem_append.mp h with h2 | h2
      · rcases mem_flatMap_escChar h2 with h3 | h3
        · exact nulChar_not_mem_stripNul s h3
        · exact hsq h3
      · simp at h2
        exact hsq h2
  · rw [show (escapeQuotes (stripNul s)).data = (stripNul s).data.flatMap escChar from rfl,
      countQuote_flatMap_escChar]
    rw [show (stripNul s).data = s.data.filter (fun c => c != nulChar) from rfl,
      countQuote_filter_ne_nul]

/-- Claim C7 witness sample text: the four characters a, single quote,
NUL, b. -/
def c7sample : String := String.mk [Char.ofNat 97, sq, nulChar, Char.ofNat 98]

/-- Claim C7 witness: at a concrete text value containing a quote and a
NUL, the hypothesis (column not reported boolean) holds and the encoded
literal contains no NUL. -/
theorem c7_text_escaping_witness :
    (some "text" : Option String) ≠ some "boolean"
    ∧ nulChar ∉ (encodeValue (fun _ => "") (some "text") (JsValue.str c7sample)).data :=
  ⟨by decide, (c7_text_escaping (fun _ => "") (some "text") (by decide) c7sample).2.1⟩

/-- Dropped-in results of the four awaited source reads performed by
checkSqliteIntegrity (migrate.js lines 38-96): the integrity_check field
of the first pragma row, the quick_check field of the second, the row list
of the foreign-key pragma, and the count of the liveness probe. An error
value models the corresponding promise rejecting. -/
structure IntegrityInput where
  integrityCheck : Except String String
  quickCheck : Except String String
  fkCheck : Except String (List (String × String))
  basicQuery : Except String Nat
deriving Repr

/-- Returns true when an Except value is an error. -/
def isErrorRes {ε α : Type} : Except ε α → Bool
  | .error _ => true
  | .ok _ => false

/-- Integrity prechecker (migrate.js lines 38-96): the three pragma fetches
run first (any rejection is caught and yields false), then the three
status tests in order, then the liveness probe (whose rejection is also
caught and yields false). -/
def checkSqliteIntegrity (i : IntegrityInput) : Bool :=
  match i.integrityCheck with
  | .error _ => false
  | .ok ic =>
    match i.quickCheck with
    | .error _ => false
    | .ok qc =>
      match i.fkCheck with
      | .error _ => false
      | .ok fk =>
        if ic ≠ "ok" then false
        else if qc ≠ "ok" then false
        else if fk.length > 0 then false
        else
          match i.basicQuery with
          | .error _ => false
          | .ok _ => true

/-- Events of the migrate run, at the granularity the outer control flow
needs: connection setup, the integrity check, the explicit process exit,
destination mutations (TRUNCATE, CREATE TABLE, INSERT, COMMIT), and other
console or read-only actions. -/
inductive MigrateEvent where
  | connectSource : MigrateEvent
  | pragmaJournal : MigrateEvent
  | pragmaSync : MigrateEvent
  | connectDest : MigrateEvent
  | runIntegrityChecks : MigrateEvent
  | exitProcess : Nat → MigrateEvent
  | destMutation : String → MigrateEvent
  | info : String → MigrateEvent
deriving DecidableEq, Repr

/-- Recognizes the events that mutate the destination database. -/
def isDestMutation : MigrateEvent → Bool
  | .destMutation _ => true
  | _ => false

/-- Events issued by migrate before the integrity decision (migrate.js
lines 99-116): open the source, two source pragmas, connect to the
destination, run the checks. None of these mutates the destination. -/
def migratePre : List MigrateEvent :=
  [MigrateEvent.connectSource, MigrateEvent.pragmaJournal, MigrateEvent.pragmaSync,
   MigrateEvent.connectDest, MigrateEvent.runIntegrityChecks]

/-- Migrate run up to and including the integrity decision (migrate.js
lines 98-120): when the check fails, the process exits with code 1 and
nothing further runs; otherwise the rest of the run (abstracted as rest)
follows. -/
def migrateTrace (i : IntegrityInput) (rest : List MigrateEvent) : List MigrateEvent :=
  migratePre ++ (if checkSqliteIntegrity i then rest else [MigrateEvent.exitProcess 1])

/-- Claim C5: the prechecker returns fail exactly when the full scan
status is not ok, or the quick scan status is not ok, or the foreign-key
row list is non-empty, or any of the four awaited checks rejects; and on
fail the run is the pre-decision prefix followed by exit code 1, a trace
containing no destination mutation, so the process exits non-zero before
any destination mutation. -/
theorem c5_integrity_gate (i : IntegrityInput) (rest : List MigrateEvent) :
    (checkSqliteIntegrity i = false ↔
      (isErrorRes i.integrityCheck = true ∨ isErrorRes i.quickCheck = true
        ∨ isErrorRes i.fkCheck = true ∨ isErrorRes i.basicQuery = true
        ∨ (∃ ic, i.integrityCheck = Except.ok ic ∧ ic ≠ "ok")
        ∨ (∃ qc, i.quickCheck = Except.ok qc ∧ qc ≠ "ok")
        ∨ (∃ fk, i.fkCheck = Except.ok fk ∧ fk ≠ [])))
    ∧ (checkSqliteIntegrity i = false →
        migrateTrace i rest = migratePre ++ [MigrateEvent.exitProcess 1]
        ∧ ∀ e ∈ migrateTrace i rest, isDestMutation e = false) := by
  constructor
  · obtain ⟨ic, qc, fk, bq⟩ := i
    rcases ic with e1 | icv <;> rcases qc with e2 | qcv <;>
      rcases fk with e3 | fkv <;> rcases bq with e4 | bqv <;>
      simp [checkSqliteIntegrity, isErrorRes] <;>
      by_cases hic : icv = "ok" <;> by_cases hqc : qcv = "ok" <;>
      rcases fkv with _ | ⟨fk0, fkrest⟩ <;>
      simp [hic, hqc]
  · intro hfail
    rw [migrateTrace, hfail]
    refine ⟨by simp, ?_⟩
    intro e he
    simp [migratePre] at he
    rcases he with h | h | h | h | h | h <;> subst h <;> rfl

/-- Claim C5 witness: a concrete input whose quick scan reports a
non-ok status makes the prechecker fail, and the run then exits with
code 1 having mutated nothing. -/
theorem c5_integrity_gate_witness :
    checkSqliteIntegrity
        ⟨Except.ok "ok", Except.ok "corrupt", Except.ok [], Except.ok 12⟩ = false
    ∧ migrateTrace ⟨Except.ok "ok", Except.ok "corrupt", Except.ok [], Except.ok 12⟩
        [MigrateEvent.destMutation "TRUNCATE"]
      = migratePre ++ [MigrateEvent.exitProcess 1] :=
  ⟨by decide,
    ((c5_integrity_gate ⟨Except.ok "ok", Except.ok "corrupt", Except.ok [], Except.ok 12⟩
      [MigrateEvent.destMutation "TRUNCATE"]).2 (by decide)).1⟩

/-- One sqlite table_info row, reduced to the fields migrate uses: column
name and declared type. -/
abbrev SchemaRow := String × String

/-- Body of the retry while-loop of migrate.js lines 164-180, called with
the current retryCount and the remaining loop fuel MAX_RETRIES minus
retryCount. attempt k is the outcome of the k-th awaited table_info
fetch. On success the loop breaks with the schema; on failure retryCount
is incremented and, once it reaches MAX_RETRIES, the last error is
re-thrown. Returns the number of fetch calls made and the outcome. The
fuel-zero arm is the unreachable fall-through of the while condition. -/
def schemaRetryGo (attempt : Nat → Except String (List SchemaRow)) :
    Nat → Nat → Nat × Except String (List SchemaRow)
  | _, 0 => (0, Except.error "schema undefined")
  | retryCount, fuel + 1 =>
    match attempt retryCount with
    | .ok rows => (1, Except.ok rows)
    | .error e =>
      if retryCount + 1 = MAX_RETRIES then (1, Except.error e)
      else
        let rest := schemaRetryGo attempt (retryCount + 1) fuel
        (rest.1 + 1, rest.2)

/-- Schema-introspection fetch with retries (migrate.js lines 163-180). -/
def fetchSchemaWithRetries (attempt : Nat → Except String (List SchemaRow)) :
    Nat × Except String (List SchemaRow) :=
  schemaRetryGo attempt 0 MAX_RETRIES

/-- Claim C9: the schema fetch is attempted up to MAX_RETRIES times; an
attempt that succeeds stops the loop with its result after exactly one
more call; when all MAX_RETRIES attempts fail the final error is
re-thrown; and the number of calls made never exceeds MAX_RETRIES. -/
theorem c9_schema_retry (attempt : Nat → Except String (List SchemaRow)) :
    (∀ rows, attempt 0 = Except.ok rows →
      fetchSchemaWithRetries attempt = (1, Except.ok rows))
    ∧ (∀ e0 rows, attempt 0 = Except.error e0 → attempt 1 = Except.ok rows →
      fetchSchemaWithRetries attempt = (2, Except.ok rows))
    ∧ (∀ e0 e1 rows, attempt 0 = Except.error e0 → attempt 1 = Except.error e1 →
      attempt 2 = Except.ok rows →
      fetchSchemaWithRetries attempt = (3, Except.ok rows))
    ∧ (∀ e0 e1 e2, attempt 0 = Except.error e0 → attempt 1 = Except.error e1 →
      attempt 2 = Except.error e2 →
      fetchSchemaWithRetries attempt = (3, Except.error e2))
    ∧ (fetchSchemaWithRetries attempt).1 ≤ MAX_RETRIES := by
  refine ⟨?_, ?_, ?_, ?_, ?_⟩
  · intro rows h0
    simp [fetchSchemaWithRetries, MAX_RETRIES, schemaRetryGo, h0]
  · intro e0 rows h0 h1
    simp [fetchSchemaWithRetries, MAX_RETRIES, schemaRetryGo, h0, h1]
  · intro e0 e1 rows h0 h1 h2
    simp [fetchSchemaWithRetries, MAX_RETRIES, schemaRetryGo, h0, h1, h2]
  · intro e0 e1 e2 h0 h1 h2
    simp [fetchSchemaWithRetries, MAX_RETRIES, schemaRetryGo, h0, h1, h2]
  · rcases h0 : attempt 0 with e0 | r0
    · rcases h1 : attempt 1 with e1 | r1
      · rcases h2 : attempt 2 with e2 | r2 <;>
          simp [fetchSchemaWithRetries, MAX_RETRIES, schemaRetryGo, h0, h1, h2]
      · simp [fetchSchemaWithRetries, MAX_RETRIES, schemaRetryGo, h0, h1]
    · simp [fetchSchemaWithRetries, MAX_RETRIES, schemaRetryGo, h0]

/-- Claim C9 witness: with the first attempt rejecting and the second
succeeding, the loop stops after two calls with the second result. -/
theorem c9_schema_retry_witness :
    fetchSchemaWithRetries
        (fun k => if k = 0 then Except.error "SQLITE_BUSY"
                  else Except.ok [("id", "INTEGER")])
      = (2, Except.ok [("id", "INTEGER")]) :=
  ((c9_schema_retry
      (fun k => if k = 0 then Except.error "SQLITE_BUSY"
                else Except.ok [("id", "INTEGER")])).2.1)
    "SQLITE_BUSY" [("id", "INTEGER")] rfl rfl

/-- A failure record as pushed at migrate.js line 256: table name,
recorded row index, error message. -/
abbrev Failure := String × Nat × String

/-- A fetched row: a JS object given as ordered (property, value) pairs. -/
abbrev Row := List (String × JsValue)

/-- Inner per-row loop of one page (migrate.js lines 217-259): every row
is attempted; a rejected insert is caught, a failure record with index
processedRows plus the current length of the failure list is appended,
and the loop continues with the next row. insert abstracts the awaited
INSERT for a row. Returns the failure list and the number of rows
attempted. -/
def processBatchRows (tableName : String) (insert : Row → Except String Unit)
    (processedRows : Nat) : List Row → List Failure → List Failure × Nat
  | [], failedRows => (failedRows, 0)
  | r :: rest, failedRows =>
    match insert r with
    | .ok _ =>
      let res := processBatchRows tableName insert processedRows rest failedRows
      (res.1, res.2 + 1)
    | .error msg =>
      let res := processBatchRows tableName insert processedRows rest
        (failedRows ++ [(tableName, processedRows + failedRows.length, msg)])
      (res.1, res.2 + 1)

theorem processBatchRows_attempts_all (tn : String) (insert : Row → Except String Unit)
    (p : Nat) (rows : List Row) (f : List Failure) :
    (processBatchRows tn insert p rows f).2 = rows.length := by
  induction rows generalizing f with
  | nil => rfl
  | cons r rest ih =>
    rcases h : insert r with e | u <;> simp [processBatchRows, h, ih]

/-- Per-table paging loop (migrate.js lines 202-271): fetch abstracts the
SELECT with LIMIT BATCH_SIZE OFFSET processedRows, commit the COMMIT
issued after a page (indexed by the offset reached). An empty successful
fetch breaks the loop; a non-empty one processes its rows, advances the
offset by the rows returned and commits; any rejection escaping to the
outer catch (the fetch, or the commit after the advance) adds a full
BATCH_SIZE to the offset and the loop resumes. Fuel bounds the
iterations; none models a run that did not terminate in the given fuel. -/
def batchLoop (tableName : String) (fetch : Nat → Except String (List Row))
    (insert : Row → Except String Unit) (commit : Nat → Except String Unit) :
    Nat → Nat → List Failure → Option (Nat × List Failure)
  | 0, _, _ => none
  | fuel + 1, processedRows, failedRows =>
    match fetch processedRows with
    | .error _ =>
      batchLoop tableName fetch insert commit fuel (processedRows + BATCH_SIZE) failedRows
    | .ok [] => some (processedRows, failedRows)
    | .ok (r :: rs) =>
      let failed2 := (processBatchRows tableName insert processedRows (r :: rs) failedRows).1
      let processed2 := processedRows + (r :: rs).length
      match commit processed2 with
      | .ok _ => batchLoop tableName fetch insert commit fuel processed2 failed2
      | .error _ =>
        batchLoop tableName fetch insert commit fuel (processed2 + BATCH_SIZE) failed2

/-- Claim C1 failing input, insert oracle: the row whose id property is 1
rejects with a uniqueness violation, every other row succeeds. -/
def c1insert : Row → Except String Unit := fun r =>
  match r.lookup "id" with
  | some (JsValue.num 1) => Except.error "UNIQUE constraint failed"
  | _ => Except.ok ()

/-- Claim C1 failing input, page: two rows at cumulative offset 0. -/
def c1rows : List Row := [[("id", JsValue.num 0)], [("id", JsValue.num 1)]]

/-- Claim C1 (code bug): on a page starting at cumulative offset 0 whose
first row inserts fine and whose second row fails, both rows are still
attempted, but the single failure is recorded with row index
processedRows plus the number of earlier failures, here 0, although the
failing row is the second row of the table, cumulative position 1. -/
theorem c1_recorded_index_bug :
    processBatchRows "user" c1insert 0 c1rows []
      = ([("user", 0, "UNIQUE constraint failed")], 2)
    ∧ (0 : Nat) ≠ 1 := by
  exact ⟨rfl, by decide⟩

/-- Fetch oracle of the claim C8 counterexample: one row at offset 0,
exhaustion at every other offset. -/
def c8fetch : Nat → Except String (List Row) := fun off =>
  if off = 0 then Except.ok [[("id", JsValue.num 1)]] else Except.ok []

/-- Insert oracle of the claim C8 counterexample: every insert succeeds. -/
def c8insert : Row → Except String Unit := fun _ => Except.ok ()

/-- Commit oracle of the claim C8 counterexample: the COMMIT after the
first page rejects. -/
def c8commit : Nat → Except String Unit := fun off =>
  if off = 1 then Except.error "connection closed" else Except.ok ()

/-- Claim C8 counterexample: the page at offset 0 is fetched successfully
with one row, yet the next fetch is issued at offset 501, not 1, because
the COMMIT after the page rejects inside the same try block and the catch
adds a full BATCH_SIZE on top of the one row already counted; the loop
then finds exhaustion at offset 501. -/
theorem c8_commit_failure_counterexample :
    batchLoop "chat" c8fetch c8insert c8commit 3 0 [] = some (501, [])
    ∧ (501 : Nat) ≠ 0 + 1 := by
  exact ⟨rfl, by decide⟩

/-- Claim C8 amended: in the per-table paging loop, a successful fetch of
an empty page terminates the loop; a successful non-empty fetch advances
the offset by the number of rows actually returned provided the page
commit succeeds, and by the rows returned plus one full page width when
the commit rejects; a fetch error advances the offset by exactly one
full page width (BATCH_SIZE) and fetching resumes. -/
theorem c8_paging_loop (tn : String) (fetch : Nat → Except String (List Row))
    (insert : Row → Except String Unit) (commit : Nat → Except String Unit)
    (fuel n : Nat) (f : List Failure) :
    (fetch n = Except.ok [] →
      batchLoop tn fetch insert commit (fuel + 1) n f = some (n, f))
    ∧ (∀ e, fetch n = Except.error e →
      batchLoop tn fetch insert commit (fuel + 1) n f
        = batchLoop tn fetch insert commit fuel (n + BATCH_SIZE) f)
    ∧ (∀ r rs, fetch n = Except.ok (r :: rs) →
      commit (n + (r :: rs).length) = Except.ok () →
      batchLoop tn fetch insert commit (fuel + 1) n f
        = batchLoop tn fetch insert commit fuel (n + (r :: rs).length)
            (processBatchRows tn insert n (r :: rs) f).1)
    ∧ (∀ r rs e, fetch n = Except.ok (r :: rs) →
      commit (n + (r :: rs).length) = Except.error e →
      batchLoop tn fetch insert commit (fuel + 1) n f
        = batchLoop tn fetch insert commit fuel (n + (r :: rs).length + BATCH_SIZE)
            (processBatchRows tn insert n (r :: rs) f).1) := by
  refine ⟨?_, ?_, ?_, ?_⟩
  · intro h
    simp [batchLoop, h]
  · intro e h
    simp [batchLoop, h]
  · intro r rs h hc
    simp only [List.length_cons] at hc
    simp [batchLoop, h, hc]
  · intro r rs e h hc
    simp only [List.length_cons] at hc
    simp [batchLoop, h, hc]

/-- Claim C8 amended witness: with a fetch oracle that is everywhere
exhausted, the loop stops immediately at its starting offset. -/
theorem c8_paging_loop_witness :
    batchLoop "chat" (fun _ => Except.ok []) c8insert c8commit 1 0 [] = some (0, []) :=
  (c8_paging_loop "chat" (fun _ => Except.ok []) c8insert c8commit 0 0 []).1 rfl

/-- Per-table schema-phase events, migrate.js lines 142-188. -/
inductive TableEvent where
  | truncateAttempt : TableEvent
  | fetchDestSchema : TableEvent
  | fetchSrcSchema : TableEvent
  | createTable : TableEvent
deriving DecidableEq, Repr

/-- Schema phase of one table (migrate.js lines 142-188): best-effort
TRUNCATE, fetch of the destination information_schema columns (line 151),
fetch of the source schema, and CREATE TABLE exactly when the destination
fetch returned no columns. destColsBefore is what the destination catalog
reports when queried; srcSchema the source table_info rows. Returns the
event order, the pgColumnTypes map as used later for boolean formatting,
and the destination columns after the phase. -/
def schemaPhase (destColsBefore : List (String × String)) (srcSchema : List SchemaRow) :
    List TableEvent × List (String × String) × List (String × String) :=
  let pgColumnTypes := destColsBefore
  if pgColumnTypes.isEmpty then
    ([TableEvent.truncateAttempt, TableEvent.fetchDestSchema, TableEvent.fetchSrcSchema,
      TableEvent.createTable],
     pgColumnTypes,
     srcSchema.map (fun c => (getSafeIdentifier c.1, sqliteToPgType c.2)))
  else
    ([TableEvent.truncateAttempt, TableEvent.fetchDestSchema, TableEvent.fetchSrcSchema],
     pgColumnTypes, destColsBefore)

/-- Claim C2 counterexample: for a table absent from the destination (the
catalog fetch returns no columns) with one source column, the column map
used for boolean formatting is empty while the create step adds the
column, and the schema-fetch event precedes the create-table event, so
the map is not fetched after the create step and does not reflect the
freshly created columns. -/
theorem c2_fetch_before_create_counterexample :
    (schemaPhase [] [("verified", "INTEGER")]).2.1 = []
    ∧ (schemaPhase [] [("verified", "INTEGER")]).2.2 = [("verified", "INTEGER")]
    ∧ (schemaPhase [] [("verified", "INTEGER")]).1.indexOf TableEvent.fetchDestSchema
        < (schemaPhase [] [("verified", "INTEGER")]).1.indexOf TableEvent.createTable := by
  exact ⟨rfl, rfl, by decide⟩

/-- Claim C2 amended: the destination column map used for boolean literal
formatting is fetched before any create-table step: it always equals the
pre-create destination columns, the fetch is the second event of the
phase, and for a table created during this run the map is empty rather
than reflecting the freshly created columns. -/
theorem c2_column_map_pre_create (d : List (String × String)) (s : List SchemaRow) :
    (schemaPhase d s).2.1 = d
    ∧ (schemaPhase d s).1.indexOf TableEvent.fetchDestSchema = 1
    ∧ (d = [] →
        (schemaPhase d s).1
          = [TableEvent.truncateAttempt, TableEvent.fetchDestSchema,
             TableEvent.fetchSrcSchema, TableEvent.createTable]
        ∧ (schemaPhase d s).2.1 = []) := by
  rcases d with _ | ⟨d0, drest⟩
  · exact ⟨rfl, rfl, fun _ => ⟨rfl, rfl⟩⟩
  · refine ⟨rfl, rfl, ?_⟩
    intro h
    simp at h

/-- Claim C2 amended witness: at an absent destination table with one
source text column, the map used for boolean formatting is empty. -/
theorem c2_column_map_pre_create_witness :
    (schemaPhase [] [("x", "TEXT")]).2.1 = [] :=
  ((c2_column_map_pre_create [] [("x", "TEXT")]).2.2 rfl).2

/-- A row of the table-list query (migrate.js line 124): the JS object has
exactly one property, name, holding the table name. Property access is
association-list lookup; an absent property is undefined. -/
def tableListRow (name : String) : List (String × JsValue) := [("name", JsValue.str name)]

/-- The per-table summand of migrate.js line 285: optional chaining on the
failedRows property with a default of 0. An absent property or a null or
numeric value contributes 0; a string or Buffer value would contribute
its length through the or-default. -/
def failedRowsSummand (obj : List (String × JsValue)) : Nat :=
  match obj.lookup "failedRows" with
  | some (JsValue.str s) => s.length
  | some (JsValue.buf b) => b.length
  | _ => 0

/-- The total of migrate.js line 285: reduce of the summand over the
enumerated table rows, starting from 0. -/
def totalFailedRows (tableNames : List String) : Nat :=
  (tableNames.map tableListRow).foldl (fun sum t => sum + failedRowsSummand t) 0

/-- Lines 286-288: the Total failed rows line appears only when the
computed total is positive. -/
def summaryLinePrinted (tableNames : List String) : Bool :=
  decide (0 < totalFailedRows tableNames)

theorem foldl_failedRows (tableNames : List String) (acc : Nat) :
    (tableNames.map tableListRow).foldl (fun sum t => sum + failedRowsSummand t) acc
      = acc := by
  induction tableNames generalizing acc with
  | nil => rfl
  | cons n rest ih =>
    have hs : failedRowsSummand (tableListRow n) = 0 := rfl
    simp only [List.map, List.foldl, hs, Nat.add_zero]
    exact ih acc

/-- Claim C10: the end-of-run total sums a failedRows field over the
enumerated table-name rows, which carry only the name property, so the
computed total is 0 in every run and the Total failed rows summary line
is never printed, whatever the per-table failure lists held. -/
theorem c10_summary_never_printed (tableNames : List String) :
    totalFailedRows tableNames = 0 ∧ summaryLinePrinted tableNames = false := by
  have h : totalFailedRows tableNames = 0 := foldl_failedRows tableNames 0
  exact ⟨h, by simp [summaryLinePrinted, h]⟩

end Migrate
